import Mathlib

/-!
Shallow embedding of the shape-eater game core (src/src/main.rs).

Modelling conventions:
* `f32` coordinates, sizes and times are embedded as exact rationals (`ℚ`);
  every comparison in the source is a strict/non-strict order comparison on
  values that are exactly representable, so the rational model is faithful.
* The speed test `player_velocity.length() > 30.` is embedded as
  `normSq > 900`: for real vectors `|v| > 30 ↔ v.x² + v.y² > 900`, which
  avoids the irrational square root.
* Bevy `Commands` are deferred; inside one system run the only observable
  consequence here is that `handle_game_over`'s freshly spawned audio entity
  is not in the query snapshot it despawns from, which the entity-level model
  reproduces.  Despawns of distinct contact entities are applied in place.
* Randomness is embedded by passing the drawn values explicitly, constrained
  to the half-open ranges `rand::Rng::random_range` uses.
-/

namespace ShapeEater

/-- 2D vector with exact rational components (embedding of `bevy` `Vec2`). -/
structure Vec2 where
  x : ℚ
  y : ℚ
  deriving DecidableEq, Repr

/-- Componentwise subtraction, `target - starting_point` in `spawn_ball`. -/
def Vec2.sub (a b : Vec2) : Vec2 := ⟨a.x - b.x, a.y - b.y⟩

/-- Negation, `gravity.0 * -1.` in `change_gravity`. -/
def Vec2.neg (a : Vec2) : Vec2 := ⟨-a.x, -a.y⟩

/-- Squared euclidean length; `v.length() > c` is embedded as `v.normSq > c²`. -/
def Vec2.normSq (a : Vec2) : ℚ := a.x * a.x + a.y * a.y

/-- `const STARTING_NUMBER: i32 = 15` -/
def STARTING_NUMBER : Int := 15

/-- `const SIZE_FACTOR: f32 = 1.5` -/
def SIZE_FACTOR : ℚ := 3 / 2

/-- `const FONT_SIZE_FACTOR: f32 = SIZE_FACTOR * 0.8` -/
def FONT_SIZE_FACTOR : ℚ := SIZE_FACTOR * (4 / 5)

/-- `enum Bound` -/
inductive Bound
  | UpperBound
  | LowerBound
  | LeftBound
  | RightBound
  deriving DecidableEq, Repr

/-- `Bound::value` -/
def Bound.value : Bound → ℚ
  | .UpperBound => 500
  | .LowerBound => -500
  | .LeftBound => -940
  | .RightBound => 940

/-- `is_out_of_bounds` -/
def is_out_of_bounds (point : Vec2) : Bool :=
  point.x < Bound.LeftBound.value
    || point.x > Bound.RightBound.value
    || point.y > Bound.UpperBound.value
    || point.y < Bound.LowerBound.value

/-- `enum GameState` -/
inductive GameState
  | DeathScreen
  | InGame
  deriving DecidableEq, Repr

/-- The sound asset loaded into a spawned `AudioPlayer` entity. -/
inductive Sound
  | BallEaten
  | WallBounce
  | GameOverSound
  deriving DecidableEq, Repr

/-- A `Ball` entity: `Numbered` weight, `Transform` translation, and the raw
(unnormalized) direction `target - starting_point` from `spawn_ball`.  The
actual `LinearVelocity` is `velDir.normalize() * 100`, whose components are
irrational; normalization is defined exactly when `velDir ≠ ⟨0, 0⟩`. -/
structure Ball where
  id : Nat
  number : Int
  pos : Vec2
  velDir : Vec2
  deriving DecidableEq, Repr

/-- The player entity's components read and written by `handle_hits`:
`LinearVelocity`, `Numbered`, `Collider` (rectangle side), `Mesh2d`
(rectangle side). -/
structure PlayerState where
  velocity : Vec2
  number : Int
  colliderSize : ℚ
  meshSize : ℚ
  deriving DecidableEq, Repr

/-- The `PlayerText` child entity: `Text2d` string and `TextFont` size. -/
structure TextState where
  text : String
  fontSize : ℚ
  deriving DecidableEq, Repr

/-- One entry of the player's `CollidingEntities` set, classified the way
`handle_hits` classifies it via `ball_query.get` / `wall_query.get`. -/
inductive Contact
  | ball (id : Nat)
  | wall
  | other
  deriving DecidableEq, Repr

/-- The world state touched by the `InGame` update systems:
player components, player text, the live `Ball` entities, the
`WallBounceStopwatch` resource (elapsed seconds), the pending
`NextState<GameState>`, and the log of spawned `AudioPlayer` sounds. -/
structure HitsState where
  player : PlayerState
  playerText : TextState
  balls : List Ball
  stopwatch : ℚ
  nextState : Option GameState
  sounds : List Sound
  deriving DecidableEq, Repr

/-- `ball_query.get(*hit_entity)`: the `Numbered` value of the ball entity
with the given id, if that entity is a live ball. -/
def lookupBall (balls : List Ball) (id : Nat) : Option Int :=
  (balls.find? (fun b => b.id == id)).map Ball.number

/-- The absorption branch of `handle_hits` for one ball contact:
`player_number_change = (ball_number as f32 / 5.).ceil() as i32`,
despawn the ball, grow the player's number, mesh and collider
(`new_size = player_number * SIZE_FACTOR`), rewrite the `PlayerText`
string and font size, and spawn the `ball_eaten` sound. -/
def absorbBall (s : HitsState) (id : Nat) (ballNumber : Int) : HitsState :=
  let change : Int := ⌈(ballNumber : ℚ) / 5⌉
  let newNumber := s.player.number + change
  let newSize : ℚ := (newNumber : ℚ) * SIZE_FACTOR
  { s with
    balls := s.balls.filter (fun b => !(b.id == id)),
    player := { s.player with
      number := newNumber, meshSize := newSize, colliderSize := newSize },
    playerText :=
      { text := toString newNumber, fontSize := (newNumber : ℚ) * FONT_SIZE_FACTOR },
    sounds := s.sounds ++ [Sound.BallEaten] }

/-- `handle_hits`: fold over the player's contact set in reported order.
A ball heavier than the player sets `NextState` to `DeathScreen` and
returns (the remaining contacts are not processed); a lighter-or-equal
ball is absorbed; a wall contact spawns the `wall_bounce` sound and resets
the stopwatch when `|velocity| > 30` and the stopwatch exceeds `0.1`. -/
def handle_hits (s : HitsState) : List Contact → HitsState
  | [] => s
  | c :: rest =>
    match c with
    | .ball id =>
      match lookupBall s.balls id with
      | some ballNumber =>
        if ballNumber > s.player.number then
          { s with nextState := some GameState.DeathScreen }
        else
          handle_hits (absorbBall s id ballNumber) rest
      | none => handle_hits s rest
    | .wall =>
      if s.player.velocity.normSq > 900 ∧ s.stopwatch > 1 / 10 then
        handle_hits { s with stopwatch := 0, sounds := s.sounds ++ [Sound.WallBounce] } rest
      else
        handle_hits s rest
    | .other => handle_hits s rest

/-- `movement`: for each queued `MovementAction(direction)` event, assign
`player_velocity.x = 10_000. * delta_time * direction`.  The `y` component
is untouched. -/
def movement (delta_secs : ℚ) (velocity : Vec2) (actions : List Int) : Vec2 :=
  actions.foldl (fun v dir => { v with x := 10000 * delta_secs * (dir : ℚ) }) velocity

/-- `random_point_on_bound`: for the horizontal bounds the drawn coordinate
is the `x` of the point, for the vertical bounds it is the `y`. -/
def random_point_on_bound (bound : Bound) (coord : ℚ) : Vec2 :=
  match bound with
  | .UpperBound | .LowerBound => ⟨coord, bound.value⟩
  | .RightBound | .LeftBound => ⟨bound.value, coord⟩

/-- The half-open range `rng.random_range(lo..hi)` draws the coordinate from
in `random_point_on_bound`: `[Left, Right)` on horizontal bounds,
`[Lower, Upper)` on vertical bounds. -/
def coordInRange (bound : Bound) (coord : ℚ) : Prop :=
  match bound with
  | .UpperBound | .LowerBound =>
      Bound.LeftBound.value ≤ coord ∧ coord < Bound.RightBound.value
  | .RightBound | .LeftBound =>
      Bound.LowerBound.value ≤ coord ∧ coord < Bound.UpperBound.value

instance (bound : Bound) (coord : ℚ) : Decidable (coordInRange bound coord) := by
  unfold coordInRange
  cases bound <;> exact instDecidableAnd

/-- The random draws consumed by one firing of `spawn_ball`:
`number = rng.random_range(1..100)`, a spawn bound from `Bound::random()`,
the coordinate drawn inside `random_point_on_bound` for it, a target bound
from `bound.other_random()`, and the coordinate for the target point. -/
structure SpawnDraws where
  number : Int
  bound : Bound
  startCoord : ℚ
  targetBound : Bound
  targetCoord : ℚ
  deriving DecidableEq, Repr

/-- The range constraints the RNG guarantees for the draws of `spawn_ball`:
`random_range(1..100)` is half-open, `other_random` filters
out the spawn bound by discriminant, and both point coordinates come from
the half-open ranges of `random_point_on_bound`. -/
def ValidDraws (d : SpawnDraws) : Prop :=
  1 ≤ d.number ∧ d.number < 100
    ∧ coordInRange d.bound d.startCoord
    ∧ d.targetBound ≠ d.bound
    ∧ coordInRange d.targetBound d.targetCoord

instance (d : SpawnDraws) : Decidable (ValidDraws d) := by
  unfold ValidDraws; exact instDecidableAnd

/-- `spawn_ball` body after the timer fires, as a function of the draws:
the new `Ball` entity carries `Numbered(number)`, the starting point as its
`Transform`, and direction `target - starting_point` (the source divides
this by its length and scales by 100 to get `LinearVelocity`). -/
def spawn_ball (id : Nat) (d : SpawnDraws) : Ball :=
  let starting_point := random_point_on_bound d.bound d.startCoord
  let target := random_point_on_bound d.targetBound d.targetCoord
  { id := id, number := d.number, pos := starting_point,
    velDir := target.sub starting_point }

/-- `despawn_out_of_bounds_balls`: despawn every ball whose translation is
out of bounds, keep the rest. -/
def despawn_out_of_bounds_balls (balls : List Ball) : List Ball :=
  balls.filter (fun b => !(is_out_of_bounds b.pos))

/-- An entity as `handle_game_over` sees it: an id and whether it carries
the `InGameEntity` marker component. -/
structure WorldEntity where
  id : Nat
  inGame : Bool
  deriving DecidableEq, Repr

/-- `handle_game_over` (runs `OnExit(GameState::InGame)`): copy the player's
`Numbered` into `CurrentScore`, spawn the `game_over` sound `AudioPlayer`
tagged `InGameEntity`, and despawn every entity the `InGameEntity` query
returned.  The spawn command is queued before the despawns, but the query
snapshot was taken before either, so the fresh sound entity (id `soundId`,
assumed fresh) is not despawned. -/
def handle_game_over (playerScore : Int) (entities : List WorldEntity)
    (soundId : Nat) : Int × List WorldEntity :=
  (playerScore,
    entities.filter (fun e => !e.inGame) ++ [{ id := soundId, inGame := true }])

/-- `setup_death_screen` (runs `OnEnter(GameState::DeathScreen)`): returns the
updated `HighScore` and the high-score line shown on the death screen. -/
def setup_death_screen (currentScore highScore : Int) : Int × String :=
  if currentScore > highScore then
    (currentScore, "new high score!")
  else
    (highScore, "high score - " ++ toString highScore)

/-- `setup_game` (runs `OnEnter(GameState::InGame)`): fresh player with
`Numbered(STARTING_NUMBER)`, mesh/collider `STARTING_NUMBER * SIZE_FACTOR`,
fresh `PlayerText`, no balls, no pending state.  The `WallBounceStopwatch`
resource is inserted once in `main` and is not written by `setup_game`, so
its value is carried over unchanged. -/
def setup_game (stopwatch : ℚ) : HitsState :=
  { player :=
      { velocity := ⟨0, 0⟩, number := STARTING_NUMBER,
        colliderSize := (STARTING_NUMBER : ℚ) * SIZE_FACTOR,
        meshSize := (STARTING_NUMBER : ℚ) * SIZE_FACTOR },
    playerText :=
      { text := toString STARTING_NUMBER,
        fontSize := (STARTING_NUMBER : ℚ) * FONT_SIZE_FACTOR },
    balls := [], stopwatch := stopwatch, nextState := none, sounds := [] }

/-- The per-frame inputs external to the modelled systems: the frame's
`time.delta()`, whether Space / R were just pressed, the decoded
`MovementAction` queue, the player velocity the physics plugin produced
for this frame, the balls `spawn_ball` emitted, and the player's
`CollidingEntities` set. -/
structure TickInput where
  dt : ℚ
  flipPressed : Bool
  restartPressed : Bool
  moveActions : List Int
  velocity : Vec2
  spawned : List Ball
  contacts : List Contact
  deriving Repr

/-- The frame's effects before `handle_hits` runs: `tick_stopwatch` advances
the stopwatch by `dt`, the physics collaborator sets the player's velocity,
and `spawn_ball` adds the frame's new balls. -/
def integrate (s : HitsState) (i : TickInput) : HitsState :=
  { s with
    stopwatch := s.stopwatch + i.dt,
    player := { s.player with velocity := i.velocity },
    balls := s.balls ++ i.spawned }

/-- One frame of the `InGame` update systems on the world state: the
integration effects, then `handle_hits` consumes the contact set. -/
def tickWorld (s : HitsState) (i : TickInput) : HitsState :=
  handle_hits (integrate s i) i.contacts

/-- Running a sequence of frames over the world state. -/
def runWorld (s : HitsState) (ts : List TickInput) : HitsState :=
  ts.foldl tickWorld s

/-- The app-level state: the `Gravity`, `HighScore` and `CurrentScore`
resources, the active `GameState`, the in-game world, and the death-screen
presentation (final score and high-score line) while it is shown. -/
structure App where
  gravity : Vec2
  state : GameState
  highScore : Int
  currentScore : Int
  world : HitsState
  deathPresentation : Option (Int × String)
  deriving Repr

/-- One frame of the whole app.  While `InGame`: `change_gravity` negates
gravity on a Space press, the update systems run on the world, and a pending
`DeathScreen` state is applied — `handle_game_over` captures
`CurrentScore` from the player's `Numbered`, then `setup_death_screen`
updates `HighScore` and builds the presentation.  While `DeathScreen`:
`restart_game` reacts to R, after which `death_screen_exit` tears the
presentation down and `setup_game` rebuilds the world (`Gravity`,
`HighScore` and the stopwatch resources are untouched). -/
def appStep (a : App) (i : TickInput) : App :=
  match a.state with
  | GameState.InGame =>
    let g := if i.flipPressed then a.gravity.neg else a.gravity
    let w := tickWorld a.world i
    match w.nextState with
    | some GameState.DeathScreen =>
      let score := w.player.number
      let sd := setup_death_screen score a.highScore
      { gravity := g, state := GameState.DeathScreen, highScore := sd.1,
        currentScore := score, world := w,
        deathPresentation := some (score, sd.2) }
    | _ => { a with gravity := g, world := w }
  | GameState.DeathScreen =>
    if i.restartPressed then
      { a with state := GameState.InGame,
               world := setup_game a.world.stopwatch,
               deathPresentation := none }
    else
      a

/-- Running a sequence of frames over the app state. -/
def runApp (a : App) (ts : List TickInput) : App :=
  ts.foldl appStep a

/-- The app state `main` builds: gravity `Vec2::NEG_Y * 1000`, initial state
`GameState::InGame`, both scores 0, fresh world, zero stopwatch. -/
def initialApp : App :=
  { gravity := ⟨0, -1000⟩, state := GameState.InGame, highScore := 0,
    currentScore := 0, world := setup_game 0, deathPresentation := none }

/-- Number of wall-bounce sound intents recorded in a world state. -/
def bcount (s : HitsState) : Nat :=
  s.sounds.count Sound.WallBounce

/-- C5: `is_out_of_bounds` is false for every point strictly inside the four
configured edges, true for every point beyond any single edge, and every
point lying exactly on an edge (within the other bounds) gets the one fixed
result `false` (all four comparisons are strict, so edges count as inside). -/
theorem is_out_of_bounds_spec (p : Vec2) :
    ((Bound.LeftBound.value < p.x ∧ p.x < Bound.RightBound.value ∧
      Bound.LowerBound.value < p.y ∧ p.y < Bound.UpperBound.value) →
        is_out_of_bounds p = false)
    ∧ ((p.x < Bound.LeftBound.value ∨ p.x > Bound.RightBound.value ∨
        p.y > Bound.UpperBound.value ∨ p.y < Bound.LowerBound.value) →
        is_out_of_bounds p = true)
    ∧ ((Bound.LeftBound.value ≤ p.x ∧ p.x ≤ Bound.RightBound.value ∧
        Bound.LowerBound.value ≤ p.y ∧ p.y ≤ Bound.UpperBound.value ∧
        (p.x = Bound.LeftBound.value ∨ p.x = Bound.RightBound.value ∨
         p.y = Bound.UpperBound.value ∨ p.y = Bound.LowerBound.value)) →
        is_out_of_bounds p = false) := by
  refine ⟨?_, ?_, ?_⟩ <;> intro h
  · obtain ⟨h1, h2, h3, h4⟩ := h
    simp only [is_out_of_bounds, Bound.value] at *
    simp only [Bool.or_eq_false_iff, decide_eq_false_iff_not, not_lt]
    exact ⟨⟨⟨le_of_lt h1, le_of_lt h2⟩, le_of_lt h4⟩, le_of_lt h3⟩
  · simp only [is_out_of_bounds, Bound.value] at *
    simp only [Bool.or_eq_true, decide_eq_true_eq]
    tauto
  · obtain ⟨h1, h2, h3, h4, _⟩ := h
    simp only [is_out_of_bounds, Bound.value] at *
    simp only [Bool.or_eq_false_iff, decide_eq_false_iff_not, not_lt]
    exact ⟨⟨⟨h1, h2⟩, h4⟩, h3⟩

/-- Witness for `is_out_of_bounds_spec` at an interior point, a point beyond
the right edge, and a point exactly on the left edge. -/
theorem is_out_of_bounds_spec_witness :
    is_out_of_bounds ⟨0, 0⟩ = false ∧ is_out_of_bounds ⟨1000, 0⟩ = true ∧
    is_out_of_bounds ⟨-940, 0⟩ = false :=
  ⟨(is_out_of_bounds_spec ⟨0, 0⟩).1 (by norm_num [Bound.value]),
   (is_out_of_bounds_spec ⟨1000, 0⟩).2.1 (by norm_num [Bound.value]),
   (is_out_of_bounds_spec ⟨-940, 0⟩).2.2 (by norm_num [Bound.value])⟩

/-- C7: processing a non-empty queue of `MovementAction`s leaves the player's
horizontal velocity at `direction × 10000 × delta_time` for the last queued
direction (overwrite semantics), and the vertical velocity untouched. -/
theorem movement_spec (dt : ℚ) (v : Vec2) (acts : List Int) (h : acts ≠ []) :
    movement dt v acts = ⟨10000 * dt * ((acts.getLast h : Int) : ℚ), v.y⟩ := by
  induction acts generalizing v with
  | nil => exact absurd rfl h
  | cons a as ih =>
    cases as with
    | nil => rfl
    | cons b bs =>
      have hbs : (b :: bs) ≠ [] := by simp
      rw [List.getLast_cons hbs]
      exact ih { v with x := 10000 * dt * (a : ℚ) } hbs

/-- Witness for `movement_spec`: two opposite commands in one tick, the
second wins. -/
theorem movement_spec_witness : movement 1 ⟨0, 5⟩ [1, -1] = ⟨-10000, 5⟩ := by
  have h := movement_spec 1 ⟨0, 5⟩ [1, -1] (by simp)
  simpa using h

/-- `appStep` never decreases the `HighScore` resource. -/
theorem appStep_highScore_le (a : App) (i : TickInput) :
    a.highScore ≤ (appStep a i).highScore := by
  unfold appStep
  cases hst : a.state with
  | InGame =>
    simp only
    cases hns : (tickWorld a.world i).nextState with
    | none => exact le_refl _
    | some g =>
      cases g with
      | DeathScreen =>
        simp only [setup_death_screen]
        split
        · exact le_of_lt (by assumption)
        · exact le_refl _
      | InGame => exact le_refl _
  | DeathScreen =>
    simp only
    split <;> exact le_refl _

/-- C3: `HighScore` is monotone non-decreasing across any sequence of frames
(hence across any sequence of rounds), and at each `DeathScreen` entry
`setup_death_screen` replaces it by `CurrentScore` exactly when
`CurrentScore` exceeds it (marking the presentation "new high score!"),
otherwise leaves it unchanged and shows the existing value. -/
theorem high_score_spec :
    (∀ (a : App) (ts : List TickInput), a.highScore ≤ (runApp a ts).highScore)
    ∧ (∀ c h : Int, h < c → setup_death_screen c h = (c, "new high score!"))
    ∧ (∀ c h : Int, c ≤ h →
        setup_death_screen c h = (h, "high score - " ++ toString h)) := by
  refine ⟨?_, ?_, ?_⟩
  · intro a ts
    induction ts generalizing a with
    | nil => exact le_refl _
    | cons t ts ih =>
      exact le_trans (appStep_highScore_le a t) (ih (appStep a t))
  · intro c h hlt
    simp [setup_death_screen, hlt]
  · intro c h hle
    simp [setup_death_screen, not_lt_of_le hle]

/-- Witness for `high_score_spec` on the spec's two scenario inputs
(50 vs 30 and 20 vs 30) and a concrete run. -/
theorem high_score_spec_witness :
    initialApp.highScore ≤ (runApp initialApp []).highScore ∧
    setup_death_screen 50 30 = (50, "new high score!") ∧
    setup_death_screen 20 30 = (30, "high score - " ++ toString (30 : Int)) :=
  ⟨high_score_spec.1 initialApp [],
   high_score_spec.2.1 50 30 (by norm_num),
   high_score_spec.2.2 20 30 (by norm_num)⟩

/-- A shared concrete world for witnesses: player of weight 15, a ball of
weight 10 (id 0) and a ball of weight 40 (id 1). -/
def demoWorld : HitsState :=
  { player :=
      { velocity := ⟨0, 0⟩, number := 15, colliderSize := 45 / 2, meshSize := 45 / 2 },
    playerText := { text := "15", fontSize := 18 },
    balls :=
      [ { id := 0, number := 10, pos := ⟨0, 0⟩, velDir := ⟨1, 0⟩ },
        { id := 1, number := 40, pos := ⟨0, 0⟩, velDir := ⟨1, 0⟩ } ],
    stopwatch := 0, nextState := none, sounds := [] }

/-- A shared concrete app state for witnesses, in `InGame` over `demoWorld`. -/
def demoApp : App :=
  { gravity := ⟨0, -1000⟩, state := GameState.InGame, highScore := 0,
    currentScore := 0, world := demoWorld, deathPresentation := none }

/-- A frame input with no external effects beyond the given contact list. -/
def quietTick (contacts : List Contact) : TickInput :=
  { dt := 0, flipPressed := false, restartPressed := false, moveActions := [],
    velocity := ⟨0, 0⟩, spawned := [], contacts := contacts }

/-- C1: a contact with a ball of weight `w ≤ p` continues the contact loop in
the state `absorbBall s id w`, which has the player's weight incremented by
`⌈w / 5⌉`, the ball despawned, mesh, collider, text and font recomputed from
the new weight, and the absorption-sound intent appended. -/
theorem absorb_contact_spec (s : HitsState) (id : Nat) (w : Int)
    (rest : List Contact) (hw : lookupBall s.balls id = some w)
    (hle : w ≤ s.player.number) :
    handle_hits s (Contact.ball id :: rest) = handle_hits (absorbBall s id w) rest
    ∧ (absorbBall s id w).player.number = s.player.number + ⌈(w : ℚ) / 5⌉
    ∧ (absorbBall s id w).balls = s.balls.filter (fun b => !(b.id == id))
    ∧ (∀ b ∈ (absorbBall s id w).balls, b.id ≠ id)
    ∧ (absorbBall s id w).player.colliderSize
        = ((s.player.number + ⌈(w : ℚ) / 5⌉ : Int) : ℚ) * SIZE_FACTOR
    ∧ (absorbBall s id w).player.meshSize
        = ((s.player.number + ⌈(w : ℚ) / 5⌉ : Int) : ℚ) * SIZE_FACTOR
    ∧ (absorbBall s id w).playerText.text
        = toString (s.player.number + ⌈(w : ℚ) / 5⌉)
    ∧ (absorbBall s id w).playerText.fontSize
        = ((s.player.number + ⌈(w : ℚ) / 5⌉ : Int) : ℚ) * FONT_SIZE_FACTOR
    ∧ (absorbBall s id w).sounds = s.sounds ++ [Sound.BallEaten] := by
  refine ⟨?_, rfl, rfl, ?_, rfl, rfl, rfl, rfl, rfl⟩
  · simp only [handle_hits, hw]
    rw [if_neg (not_lt_of_le hle)]
  · intro b hb
    simp only [absorbBall, List.mem_filter, Bool.not_eq_eq_eq_not, Bool.not_true,
      beq_eq_false_iff_ne, ne_eq] at hb
    exact hb.2

/-- Witness for `absorb_contact_spec`: the spec scenario of a weight-15
player absorbing a weight-10 ball, new weight 17. -/
theorem absorb_contact_spec_witness :
    (handle_hits demoWorld [Contact.ball 0]).player.number = 17 := by
  have h := absorb_contact_spec demoWorld 0 10 [] rfl (by norm_num [demoWorld])
  rw [h.1,
    show handle_hits (absorbBall demoWorld 0 10) [] = absorbBall demoWorld 0 10 from
      rfl,
    h.2.1]
  norm_num [demoWorld]

/-- Lethal branch of `handle_hits`: a ball heavier than the player sets the
pending state to `DeathScreen` and changes nothing else; the `return`
discards the remaining contacts. -/
theorem handle_hits_lethal (s : HitsState) (id : Nat) (w : Int)
    (rest : List Contact) (hw : lookupBall s.balls id = some w)
    (hlt : s.player.number < w) :
    handle_hits s (Contact.ball id :: rest)
      = { s with nextState := some GameState.DeathScreen } := by
  simp only [handle_hits, hw]
  rw [if_pos hlt]

/-- C2: a contact with a ball of weight `w > p` sets the pending state to
`DeathScreen`, processes no further contacts that frame and leaves the whole
world (in particular the player's weight) unchanged; the frame's transition
then enters `DeathScreen` with `CurrentScore` captured from the player's
weight at the lethal contact. -/
theorem lethal_contact_spec :
    (∀ (s : HitsState) (id : Nat) (w : Int) (rest : List Contact),
      lookupBall s.balls id = some w → s.player.number < w →
      handle_hits s (Contact.ball id :: rest)
        = { s with nextState := some GameState.DeathScreen })
    ∧ (∀ (a : App) (i : TickInput) (id : Nat) (w : Int) (rest : List Contact),
      a.state = GameState.InGame →
      i.contacts = Contact.ball id :: rest →
      lookupBall (integrate a.world i).balls id = some w →
      (integrate a.world i).player.number < w →
      (appStep a i).state = GameState.DeathScreen
        ∧ (appStep a i).currentScore = (integrate a.world i).player.number) := by
  refine ⟨handle_hits_lethal, ?_⟩
  intro a i id w rest hst hc hw hlt
  have ht : tickWorld a.world i
      = { integrate a.world i with nextState := some GameState.DeathScreen } := by
    rw [tickWorld, hc]
    exact handle_hits_lethal _ _ _ _ hw hlt
  simp only [appStep, hst, ht]
  exact ⟨trivial, trivial⟩

/-- Witness for `lethal_contact_spec`: the spec scenario of a weight-15
player hitting a weight-40 ball — death screen, `CurrentScore = 15`. -/
theorem lethal_contact_spec_witness :
    (appStep demoApp (quietTick [Contact.ball 1])).state = GameState.DeathScreen
      ∧ (appStep demoApp (quietTick [Contact.ball 1])).currentScore = 15 := by
  have h := lethal_contact_spec.2 demoApp (quietTick [Contact.ball 1]) 1 40 []
    rfl rfl rfl (by norm_num [integrate, demoApp, demoWorld, quietTick])
  exact ⟨h.1, by rw [h.2]; rfl⟩

/-- A frame emits a bounce sound when `handle_hits` appends a
`wall_bounce` intent during it. -/
def emitsBounce (s : HitsState) (i : TickInput) : Prop :=
  bcount s < bcount (tickWorld s i)

instance (s : HitsState) (i : TickInput) : Decidable (emitsBounce s i) :=
  Nat.decLt _ _

/-- Core invariant of one `handle_hits` run: the player's velocity is never
written; either the stopwatch and the wall-bounce count are unchanged, or
exactly one bounce fired — which requires the incoming stopwatch above `0.1`
and the speed condition — and the stopwatch ends reset to zero. -/
theorem handle_hits_bounce (cs : List Contact) (s : HitsState) :
    (handle_hits s cs).player.velocity = s.player.velocity
    ∧ (((handle_hits s cs).stopwatch = s.stopwatch
          ∧ bcount (handle_hits s cs) = bcount s)
        ∨ ((handle_hits s cs).stopwatch = 0
            ∧ s.player.velocity.normSq > 900 ∧ s.stopwatch > 1 / 10
            ∧ bcount (handle_hits s cs) = bcount s + 1)) := by
  induction cs generalizing s with
  | nil => exact ⟨rfl, Or.inl ⟨rfl, rfl⟩⟩
  | cons c rest ih =>
    cases c with
    | ball id =>
      cases hb : lookupBall s.balls id with
      | none => simpa only [handle_hits, hb] using ih s
      | some n =>
        by_cases hn : n > s.player.number
        · simp only [handle_hits, hb, if_pos hn]
          refine ⟨?_, Or.inl ⟨?_, ?_⟩⟩ <;> trivial
        · simp only [handle_hits, hb, if_neg hn]
          have habs : bcount (absorbBall s id n) = bcount s := by
            simp [bcount, absorbBall, List.count_append]
          obtain ⟨hv, hsw⟩ := ih (absorbBall s id n)
          refine ⟨hv, ?_⟩
          rcases hsw with ⟨h1, h2⟩ | ⟨h1, h2, h3, h4⟩
          · exact Or.inl ⟨h1, h2.trans habs⟩
          · exact Or.inr ⟨h1, h2, h3, by rw [h4, habs]⟩
    | wall =>
      by_cases hc : s.player.velocity.normSq > 900 ∧ s.stopwatch > 1 / 10
      · simp only [handle_hits, if_pos hc]
        set s1 : HitsState :=
          { s with stopwatch := 0, sounds := s.sounds ++ [Sound.WallBounce] } with hs1
        have hb1 : bcount s1 = bcount s + 1 := by
          simp [bcount, hs1, List.count_append]
        obtain ⟨hv, hsw⟩ := ih s1
        refine ⟨hv, Or.inr ?_⟩
        rcases hsw with ⟨h1, h2⟩ | ⟨h1, h2, h3, h4⟩
        · exact ⟨h1, hc.1, hc.2, by rw [h2, hb1]⟩
        · exact absurd (show (1 / 10 : ℚ) < 0 from h3) (by norm_num)
      · simp only [handle_hits, if_neg hc]
        exact ih s
    | other => simpa only [handle_hits] using ih s

/-- C4 part one, at frame granularity: a bounce intent is emitted during a
frame only when the physics velocity satisfies the speed threshold and the
stopwatch — after this frame's `tick_stopwatch` — exceeds `0.1`; the
emission is unique in the frame and resets the stopwatch. -/
theorem emitsBounce_char (s : HitsState) (i : TickInput)
    (h : emitsBounce s i) :
    i.velocity.normSq > 900 ∧ s.stopwatch + i.dt > 1 / 10
      ∧ (tickWorld s i).stopwatch = 0
      ∧ bcount (tickWorld s i) = bcount s + 1 := by
  have hkey := handle_hits_bounce i.contacts (integrate s i)
  have hbc : bcount (integrate s i) = bcount s := rfl
  rcases hkey.2 with ⟨h1, h2⟩ | ⟨h1, h2, h3, h4⟩
  · exfalso
    have hc : bcount (tickWorld s i) = bcount s := by
      rw [tickWorld, h2, hbc]
    have hlt : bcount s < bcount (tickWorld s i) := h
    rw [hc] at hlt
    exact lt_irrefl _ hlt
  · refine ⟨h2, h3, h1, ?_⟩
    rw [tickWorld, h4, hbc]

/-- The stopwatch grows by at most `dt` per frame. -/
theorem tickWorld_stopwatch_le (s : HitsState) (i : TickInput) :
    (tickWorld s i).stopwatch ≤ s.stopwatch + i.dt := by
  have hkey := handle_hits_bounce i.contacts (integrate s i)
  rcases hkey.2 with ⟨h1, _⟩ | ⟨h1, _, h3, _⟩
  · rw [tickWorld, h1]
    exact le_of_eq rfl
  · rw [tickWorld, h1]
    have hsw : (integrate s i).stopwatch = s.stopwatch + i.dt := rfl
    rw [hsw] at h3
    linarith

/-- Over a run, the stopwatch is bounded by its start value plus the total
elapsed time. -/
theorem runWorld_stopwatch_le (ts : List TickInput) (s : HitsState) :
    (runWorld s ts).stopwatch ≤ s.stopwatch + (ts.map TickInput.dt).sum := by
  induction ts generalizing s with
  | nil => simp [runWorld]
  | cons t ts ih =>
    have h1 : runWorld s (t :: ts) = runWorld (tickWorld s t) ts := rfl
    have h2 := ih (tickWorld s t)
    have h3 := tickWorld_stopwatch_le s t
    rw [h1]
    calc (runWorld (tickWorld s t) ts).stopwatch
        ≤ (tickWorld s t).stopwatch + (ts.map TickInput.dt).sum := h2
      _ ≤ s.stopwatch + t.dt + (ts.map TickInput.dt).sum := by linarith
      _ = s.stopwatch + ((t :: ts).map TickInput.dt).sum := by
          simp [List.map_cons, List.sum_cons]; ring

/-- C4: a bounce intent fires only when the player's speed exceeds the
threshold (`|v| > 30`, embedded as `normSq > 900`) and the debounce
stopwatch exceeds `0.1`, and the stopwatch resets on each emission; as a
consequence, any two frames that both emit a bounce intent are separated by
more than `0.1` time units of accumulated `delta`, under arbitrary
continuous wall contact. -/
theorem bounce_debounce_spec :
    (∀ (s : HitsState) (i : TickInput), emitsBounce s i →
        i.velocity.normSq > 900 ∧ s.stopwatch + i.dt > 1 / 10
          ∧ (tickWorld s i).stopwatch = 0
          ∧ bcount (tickWorld s i) = bcount s + 1)
    ∧ (∀ (s : HitsState) (pre : List TickInput) (ti : TickInput)
        (mid : List TickInput) (tj : TickInput),
        emitsBounce (runWorld s pre) ti →
        emitsBounce (runWorld s (pre ++ ti :: mid)) tj →
        (mid.map TickInput.dt).sum + tj.dt > 1 / 10) := by
  refine ⟨emitsBounce_char, ?_⟩
  intro s pre ti mid tj h1 h2
  have e1 := emitsBounce_char _ _ h1
  have e2 := emitsBounce_char _ _ h2
  have hsplit : runWorld s (pre ++ ti :: mid)
      = runWorld (tickWorld (runWorld s pre) ti) mid := by
    simp [runWorld, List.foldl_append]
  have hb : (runWorld (tickWorld (runWorld s pre) ti) mid).stopwatch
      ≤ (tickWorld (runWorld s pre) ti).stopwatch + (mid.map TickInput.dt).sum :=
    runWorld_stopwatch_le mid _
  rw [e1.2.2.1] at hb
  rw [hsplit] at h2 e2
  have := e2.2.1
  linarith

/-- A frame input that produces a qualifying wall contact: high incoming
speed, one wall contact. -/
def bounceTick (dt : ℚ) : TickInput :=
  { dt := dt, flipPressed := false, restartPressed := false, moveActions := [],
    velocity := ⟨40, 0⟩, spawned := [], contacts := [Contact.wall] }

/-- Witness for `bounce_debounce_spec`: two qualifying wall-contact frames,
`0.2` and then `0.3` seconds of elapsed delta. -/
theorem bounce_debounce_spec_witness :
    (bounceTick (1 / 5)).velocity.normSq > 900
    ∧ (setup_game 0).stopwatch + (bounceTick (1 / 5)).dt > 1 / 10
    ∧ (([] : List TickInput).map TickInput.dt).sum + (bounceTick (3 / 10)).dt
        > 1 / 10 := by
  have he1 : emitsBounce (setup_game 0) (bounceTick (1 / 5)) := by
    show bcount (setup_game 0)
        < bcount (tickWorld (setup_game 0) (bounceTick (1 / 5)))
    norm_num [bcount, tickWorld, integrate, handle_hits, setup_game, bounceTick,
      Vec2.normSq]
  have he0 : runWorld (setup_game 0) [] = setup_game 0 := rfl
  have he2 : emitsBounce (runWorld (setup_game 0) ([] ++ [bounceTick (1 / 5)]))
      (bounceTick (3 / 10)) := by
    show bcount (runWorld (setup_game 0) ([] ++ [bounceTick (1 / 5)]))
        < bcount (tickWorld (runWorld (setup_game 0) ([] ++ [bounceTick (1 / 5)]))
            (bounceTick (3 / 10)))
    norm_num [bcount, runWorld, tickWorld, integrate, handle_hits, setup_game,
      bounceTick, Vec2.normSq]
  have h1 := bounce_debounce_spec.1 (setup_game 0) (bounceTick (1 / 5)) he1
  have h2 := bounce_debounce_spec.2 (setup_game 0) [] (bounceTick (1 / 5)) []
    (bounceTick (3 / 10)) (he0 ▸ he1) he2
  exact ⟨h1.1, h1.2.1, h2⟩

/-- Balls are only ever removed by `handle_hits`, never modified: every
ball record surviving the contact loop already existed unchanged before. -/
theorem handle_hits_balls_subset (cs : List Contact) (s : HitsState) (b : Ball)
    (hb : b ∈ (handle_hits s cs).balls) : b ∈ s.balls := by
  induction cs generalizing s with
  | nil => exact hb
  | cons c rest ih =>
    cases c with
    | ball id =>
      cases hl : lookupBall s.balls id with
      | none =>
        simp only [handle_hits, hl] at hb
        exact ih s hb
      | some n =>
        by_cases hn : n > s.player.number
        · simp only [handle_hits, hl, if_pos hn] at hb
          exact hb
        · simp only [handle_hits, hl, if_neg hn] at hb
          have := ih (absorbBall s id n) hb
          simp only [absorbBall, List.mem_filter] at this
          exact this.1
    | wall =>
      by_cases hc : s.player.velocity.normSq > 900 ∧ s.stopwatch > 1 / 10
      · simp only [handle_hits, if_pos hc] at hb
        exact ih { s with stopwatch := 0, sounds := s.sounds ++ [Sound.WallBounce] } hb
      · simp only [handle_hits, if_neg hc] at hb
        exact ih s hb
    | other =>
      simp only [handle_hits] at hb
      exact ih s hb

/-- C8: every spawned ball's weight is the integer drawn from the fixed
half-open range `1..100`, so `1 ≤ w < 100`; and after spawn neither
`handle_hits` nor `despawn_out_of_bounds_balls` ever alters a surviving
ball record — balls are removed whole or left untouched. -/
theorem spawn_weight_spec :
    (∀ (id : Nat) (d : SpawnDraws), ValidDraws d →
        1 ≤ (spawn_ball id d).number ∧ (spawn_ball id d).number < 100)
    ∧ (∀ (cs : List Contact) (s : HitsState) (b : Ball),
        b ∈ (handle_hits s cs).balls → b ∈ s.balls)
    ∧ (∀ (balls : List Ball) (b : Ball),
        b ∈ despawn_out_of_bounds_balls balls → b ∈ balls) := by
  refine ⟨?_, handle_hits_balls_subset, ?_⟩
  · intro id d hv
    exact ⟨hv.1, hv.2.1⟩
  · intro balls b hb
    exact (List.mem_filter.mp hb).1

/-- Witness for `spawn_weight_spec`: a concrete draw of weight 50 from the
upper to the lower edge, and the weight-40 ball surviving the absorption
frame of `demoWorld` unchanged. -/
theorem spawn_weight_spec_witness :
    (1 ≤ (spawn_ball 0 ⟨50, Bound.UpperBound, 0, Bound.LowerBound, 0⟩).number
      ∧ (spawn_ball 0 ⟨50, Bound.UpperBound, 0, Bound.LowerBound, 0⟩).number < 100)
    ∧ ({ id := 1, number := 40, pos := ⟨0, 0⟩, velDir := ⟨1, 0⟩ } : Ball)
        ∈ demoWorld.balls := by
  refine ⟨spawn_weight_spec.1 0 _ ?_, ?_⟩
  · refine ⟨by norm_num, by norm_num, ?_, by decide, ?_⟩ <;>
      norm_num [coordInRange, Bound.value]
  · exact spawn_weight_spec.2.1 [Contact.ball 0] demoWorld _ (by decide)

/-- Counterexample to the claim that the spawn and target points of a ball
trajectory are always distinct: the half-open coordinate ranges of the lower
and left edges both contain the bottom-left corner `(-940, -500)`, and these
valid draws make `target - starting_point` the zero vector, so
`.normalize()` divides by zero. -/
theorem spawn_direction_counterexample :
    ValidDraws ⟨50, Bound.LowerBound, -940, Bound.LeftBound, -500⟩
    ∧ (spawn_ball 7 ⟨50, Bound.LowerBound, -940, Bound.LeftBound, -500⟩).velDir
        = ⟨0, 0⟩ := by
  constructor
  · refine ⟨by norm_num, by norm_num, ?_, by decide, ?_⟩ <;>
      norm_num [coordInRange, Bound.value]
  · simp only [spawn_ball, random_point_on_bound, Bound.value, Vec2.sub,
      Vec2.mk.injEq]
    norm_num

/-- C9 (amended): for valid draws the spawn and target points are distinct —
hence the direction is well defined — except in the single case where both
points are the bottom-left corner `(-940, -500)` (spawn and target edges the
lower and left edge in either order, both coordinates at their range
minimum). -/
theorem spawn_direction_spec (id : Nat) (d : SpawnDraws) (hv : ValidDraws d)
    (hz : (spawn_ball id d).velDir = ⟨0, 0⟩) :
    random_point_on_bound d.bound d.startCoord = ⟨-940, -500⟩
    ∧ random_point_on_bound d.targetBound d.targetCoord = ⟨-940, -500⟩ := by
  obtain ⟨n, b, sc, tb, tc⟩ := d
  obtain ⟨h1, h2, hs, hne, ht⟩ := hv
  simp only [spawn_ball, Vec2.sub, Vec2.mk.injEq] at hz
  cases b <;> cases tb <;>
    first
    | exact absurd rfl hne
    | (simp only [random_point_on_bound, Bound.value, coordInRange,
        Vec2.mk.injEq] at hz hs ht ⊢
       constructor <;> constructor <;>
         first
         | rfl
         | trivial
         | linarith [hz.1, hz.2, hs.1, hs.2, ht.1, ht.2])

/-- Witness for `spawn_direction_spec` at the corner draws. -/
theorem spawn_direction_spec_witness :
    random_point_on_bound Bound.LowerBound (-940) = ⟨-940, -500⟩
    ∧ random_point_on_bound Bound.LeftBound (-500) = ⟨-940, -500⟩ := by
  refine spawn_direction_spec 7 ⟨50, Bound.LowerBound, -940, Bound.LeftBound, -500⟩
    ⟨by norm_num, by norm_num, ?_, by decide, ?_⟩ ?_
  · norm_num [coordInRange, Bound.value]
  · norm_num [coordInRange, Bound.value]
  · simp only [spawn_ball, random_point_on_bound, Bound.value, Vec2.sub,
      Vec2.mk.injEq]
    norm_num

/-- Counterexample to the claim that no `InGameEntity`-tagged entity exists
while the death screen is active: `handle_game_over` itself spawns the
game-over sound `AudioPlayer` tagged `InGameEntity`, and that entity is not
in the despawn query's snapshot, so it survives the transition.  Here the
pre-transition world has two tagged entities (0, 1) and an untagged one (2);
entity 3 is the fresh sound entity, present and tagged afterwards. -/
theorem game_over_scope_counterexample :
    ({ id := 3, inGame := true } : WorldEntity)
        ∈ (handle_game_over 15 [⟨0, true⟩, ⟨1, true⟩, ⟨2, false⟩] 3).2
      ∧ ({ id := 3, inGame := true } : WorldEntity).inGame = true := by
  decide

/-- C6 (amended): at the `InGame` → `DeathScreen` transition,
`handle_game_over` captures `CurrentScore` and destroys every entity that
was tagged `InGameEntity` when the transition began; the game-over sound
entity it spawns during the transition is the only entity carrying the
`InGameEntity` tag afterwards (it is despawned only at the next
transition). -/
theorem game_over_scope_spec (score : Int) (entities : List WorldEntity)
    (soundId : Nat) (hfresh : ∀ e ∈ entities, e.id ≠ soundId) :
    (handle_game_over score entities soundId).1 = score
    ∧ (∀ e ∈ entities, e.inGame = true →
        e ∉ (handle_game_over score entities soundId).2)
    ∧ (∀ e ∈ (handle_game_over score entities soundId).2, e.inGame = true →
        e = { id := soundId, inGame := true }) := by
  refine ⟨rfl, ?_, ?_⟩
  · intro e he hg hmem
    simp only [handle_game_over, List.mem_append, List.mem_filter,
      List.mem_singleton] at hmem
    rcases hmem with ⟨_, hf⟩ | hs
    · rw [hg] at hf
      simp at hf
    · exact hfresh e he (by rw [hs])
  · intro e hmem hg
    simp only [handle_game_over, List.mem_append, List.mem_filter,
      List.mem_singleton] at hmem
    rcases hmem with ⟨_, hf⟩ | hs
    · rw [hg] at hf
      simp at hf
    · exact hs

/-- Witness for `game_over_scope_spec`: score 15 captured and the tagged
entity 0 destroyed. -/
theorem game_over_scope_spec_witness :
    (handle_game_over 15 [⟨0, true⟩, ⟨2, false⟩] 3).1 = 15
    ∧ ({ id := 0, inGame := true } : WorldEntity)
        ∉ (handle_game_over 15 [⟨0, true⟩, ⟨2, false⟩] 3).2 := by
  have h := game_over_scope_spec 15 [⟨0, true⟩, ⟨2, false⟩] 3 (by decide)
  exact ⟨h.1, h.2.1 ⟨0, true⟩ (by decide) rfl⟩

/-- A frame whose only effect is a Space press (`change_gravity`). -/
def flipTick : TickInput :=
  { dt := 0, flipPressed := true, restartPressed := false, moveActions := [],
    velocity := ⟨0, 0⟩, spawned := [], contacts := [] }

/-- The weight-16 ball used in the lethal scenario frame. -/
def deathBall : Ball :=
  { id := 0, number := 16, pos := ⟨0, 0⟩, velDir := ⟨1, 0⟩ }

/-- A frame in which a freshly spawned weight-16 ball lethally contacts the
weight-15 player. -/
def deathTick : TickInput :=
  { dt := 0, flipPressed := false, restartPressed := false, moveActions := [],
    velocity := ⟨0, 0⟩, spawned := [deathBall], contacts := [Contact.ball 0] }

/-- A frame whose only effect is an R press (`restart_game`). -/
def restartTick : TickInput :=
  { dt := 0, flipPressed := false, restartPressed := true, moveActions := [],
    velocity := ⟨0, 0⟩, spawned := [], contacts := [] }

/-- C10: no state transition writes the `Gravity` resource — a frame without
a Space press leaves gravity unchanged in every state, a Space press while
playing exactly negates it — and concretely, after one flip, a death and a
restart, the new round starts `InGame` with gravity pointing upward
`⟨0, 1000⟩` instead of the initial `⟨0, -1000⟩`. -/
theorem gravity_persistence_spec :
    (∀ (a : App) (i : TickInput), i.flipPressed = false →
        (appStep a i).gravity = a.gravity)
    ∧ (∀ (a : App) (i : TickInput), a.state = GameState.InGame →
        i.flipPressed = true → (appStep a i).gravity = a.gravity.neg)
    ∧ ((runApp initialApp [flipTick, deathTick, restartTick]).state
          = GameState.InGame
        ∧ (runApp initialApp [flipTick, deathTick, restartTick]).gravity
          = ⟨0, 1000⟩) := by
  refine ⟨?_, ?_, ?_⟩
  · intro a i hf
    cases hst : a.state with
    | InGame =>
      simp only [appStep, hst, hf, Bool.false_eq_true, if_false]
      cases hns : (tickWorld a.world i).nextState with
      | none => rfl
      | some g => cases g <;> rfl
    | DeathScreen =>
      simp only [appStep, hst]
      split <;> rfl
  · intro a i hst hf
    simp only [appStep, hst, hf, if_true]
    cases hns : (tickWorld a.world i).nextState with
    | none => rfl
    | some g => cases g <;> rfl
  · constructor <;> rfl

/-- Witness for `gravity_persistence_spec`: a quiet frame preserves gravity,
a flip frame negates it. -/
theorem gravity_persistence_spec_witness :
    (appStep demoApp (quietTick [])).gravity = demoApp.gravity
    ∧ (appStep demoApp flipTick).gravity = demoApp.gravity.neg :=
  ⟨gravity_persistence_spec.1 demoApp (quietTick []) rfl,
   gravity_persistence_spec.2.1 demoApp flipTick rfl rfl⟩

end ShapeEater
